import Mathlib

/-!
# Button / gyro LED application (`Core/Src/app.c`, `Core/Inc/app.h`)

A shallow embedding of the application code: the static variables become a
record `State`, every call of a collaborator (HAL, gyro driver, CMSIS-RTOS2)
is appended to a trace kept in the state, and the values the collaborators
return are taken from an environment `Env`.  The busy loop `while(1){}` is a
terminal outcome `Outcome.halted`.
-/

namespace App

/-! ## Types declared outside `app.c` / `app.h` -/

/-- Modelled from the spec: `GPIO_PinState` is declared in `stm32f4xx_hal.h`,
which is not among the sources; the digital input reads `{Set, Reset}`. -/
inductive GPIO_PinState where
  | GPIO_PIN_RESET
  | GPIO_PIN_SET
  deriving DecidableEq, Repr

/-- Modelled from the spec: `osStatus_t` is declared in `cmsis_os2.h`, which
is not among the sources; `osOK` is the designated success code, the other
enumerators are the error codes of the CMSIS-RTOS2 interface. -/
inductive osStatus_t where
  | osOK
  | osError
  | osErrorTimeout
  | osErrorResource
  | osErrorParameter
  | osErrorNoMemory
  | osErrorISR
  | osStatusReserved
  deriving DecidableEq, Repr

/-- Modelled from the spec: `osThreadState_t` is declared in `cmsis_os2.h`,
which is not among the sources; the thread-liveness states of the
CMSIS-RTOS2 interface, with the "terminated" and "error" states. -/
inductive osThreadState_t where
  | osThreadInactive
  | osThreadReady
  | osThreadRunning
  | osThreadBlocked
  | osThreadTerminated
  | osThreadError
  | osThreadReserved
  deriving DecidableEq, Repr

/-- Handles `osThreadId_t` / `osTimerId_t` are pointers; only the comparison
with `NULL` is used. -/
abbrev Handle := Nat

/-- The null pointer. -/
def NULL : Handle := 0

/-! ## `app.h` -/

/-- The enumeration `gyroRotationRate` of `app.h`. -/
inductive gyroRotationRate where
  | counterClockwiseFast
  | counterClockwiseSlow
  | nearlyZero
  | clockwiseSlow
  | clockwiseFast
  deriving DecidableEq, Repr

/-- The integer value of each enumerator of `gyroRotationRate`. -/
def gyroRotationRate.toInt : gyroRotationRate → Int
  | .counterClockwiseFast => -15000
  | .counterClockwiseSlow => -2000
  | .nearlyZero => 0
  | .clockwiseSlow => 2000
  | .clockwiseFast => 15000

/-- The two output pins written by the application
(`GREEN_LED_PORT, GREEN_LED_PIN` and `RED_LED_PORT, RED_LED_PIN`). -/
inductive Led where
  | GREEN_LED
  | RED_LED
  deriving DecidableEq, Repr

/-- `TIMER_PERIOD`. -/
def TIMER_PERIOD : Nat := 100

/-- `TASK_DELAY`. -/
def TASK_DELAY : Nat := 100

/-- The compile switches of `app.h`; each field says whether the macro of
that name is defined. -/
structure Build where
  LAB1_USE_POLLING : Bool
  LAB2_USE_INTERRUPT : Bool
  LAB3_USE_OS_TIMER : Bool
  LAB3_USE_TASK : Bool
  deriving DecidableEq, Repr

/-- The Polling build: only `LAB1_USE_POLLING` is defined. -/
def Build.polling : Build := ⟨true, false, false, false⟩

/-- The InterruptDriven build: only `LAB2_USE_INTERRUPT` is defined. -/
def Build.interrupt : Build := ⟨false, true, false, false⟩

/-- The TimerDriven build: only `LAB3_USE_OS_TIMER` is defined (together
with `LAB3_USE_OS`, which only guards declarations). -/
def Build.timer : Build := ⟨false, false, true, false⟩

/-- The TaskDriven build: only `LAB3_USE_TASK` is defined. -/
def Build.task : Build := ⟨false, false, false, true⟩

/-! ## Collaborators: calls and results -/

/-- One call of a collaborator, with the value it returned or was given. -/
inductive Event where
  | HAL_GPIO_ReadPin (result : GPIO_PinState)
  | Gyro_Get_Velocity (result : Int)
  | HAL_GPIO_WritePin (led : Led) (value : GPIO_PinState)
  | osThreadNew (result : Handle)
  | osDelay (ticks : Nat) (result : osStatus_t)
  | osTimerNew (result : Handle)
  | osTimerStart (ticks : Nat) (result : osStatus_t)
  | HAL_NVIC_DisableIRQ
  | HAL_GPIO_EXTI_CLEAR_IT
  | HAL_NVIC_EnableIRQ
  deriving DecidableEq, Repr

/-- Whether the event is a read of the button pin. -/
def Event.isPinRead : Event → Bool
  | .HAL_GPIO_ReadPin _ => true
  | _ => false

/-- Whether the event is a read of the gyro. -/
def Event.isGyroRead : Event → Bool
  | .Gyro_Get_Velocity _ => true
  | _ => false

/-- Whether the event is a write of an LED. -/
def Event.isLedWrite : Event → Bool
  | .HAL_GPIO_WritePin _ _ => true
  | _ => false

/-- Whether the event is a write of the given LED. -/
def Event.isWriteOf (l : Led) : Event → Bool
  | .HAL_GPIO_WritePin l' _ => decide (l' = l)
  | _ => false

/-- Whether the event is a call of `osDelay`. -/
def Event.isDelay : Event → Bool
  | .osDelay _ _ => true
  | _ => false

/-- Whether the event is a call of `osTimerStart`. -/
def Event.isTimerStart : Event → Bool
  | .osTimerStart _ _ => true
  | _ => false

/-- What the collaborators return: the value of the `i`-th read of the
button pin, of the `i`-th read of the gyro, of the `i`-th `osDelay`
(counting from 0), and of the creation and start calls. -/
structure Env where
  HAL_GPIO_ReadPin : Nat → GPIO_PinState
  Gyro_Get_Velocity : Nat → Int
  osDelay : Nat → osStatus_t
  osThreadNew : Handle
  osTimerNew : Handle
  osTimerStart : osStatus_t

/-- The static variables of `app.c`, and the trace of collaborator calls
made so far (oldest first). -/
structure State where
  buttonState : GPIO_PinState
  rotation : gyroRotationRate
  rawVelocity : Int
  taskID : Handle
  taskStatus : osThreadState_t
  osState : osStatus_t
  timerID : Handle
  timerStatus : osStatus_t
  sysTicks : Int
  trace : List Event
  deriving DecidableEq, Repr

/-- The statics after reset (zero-initialised), with no call made yet. -/
def State.reset : State :=
  { buttonState := .GPIO_PIN_RESET, rotation := .nearlyZero, rawVelocity := 0,
    taskID := NULL, taskStatus := .osThreadInactive, osState := .osOK,
    timerID := NULL, timerStatus := .osOK, sysTicks := 0, trace := [] }

/-- How a function ends: it returns, it enters `while(1){}` (and stays
there, making no further call), or, for the endless task loop, the
iterations granted to the model are used up with the loop still running. -/
inductive Outcome where
  | returned (s : State)
  | halted (s : State)
  | running (s : State)
  deriving DecidableEq, Repr

/-- Sequencing: the rest of the caller runs only if the callee returned. -/
def Outcome.andThen (o : Outcome) (k : State → Outcome) : Outcome :=
  match o with
  | .returned s => k s
  | .halted s => .halted s
  | .running s => .running s

/-- The state an outcome carries. -/
def Outcome.state : Outcome → State
  | .returned s => s
  | .halted s => s
  | .running s => s

/-- Number of pin reads in a trace. -/
def pinReads (t : List Event) : Nat := t.countP Event.isPinRead

/-- Number of gyro reads in a trace. -/
def gyroReads (t : List Event) : Nat := t.countP Event.isGyroRead

/-- Number of LED writes in a trace. -/
def ledWrites (t : List Event) : Nat := t.countP Event.isLedWrite

/-- Number of writes of one LED in a trace. -/
def writesOf (l : Led) (t : List Event) : Nat := t.countP (Event.isWriteOf l)

/-- Number of `osDelay` calls in a trace. -/
def delayCalls (t : List Event) : Nat := t.countP Event.isDelay

/-- Conversion to `int16_t`. -/
def wrapInt16 (v : Int) : Int := (v + 32768) % 65536 - 32768

/-- Conversion to `int8_t`. -/
def wrapInt8 (v : Int) : Int := (v + 128) % 256 - 128

/-- Call of `HAL_GPIO_ReadPin(BUTTON_PORT, BUTTON_PIN)`. -/
def HAL_GPIO_ReadPin (env : Env) (s : State) : GPIO_PinState × State :=
  let r := env.HAL_GPIO_ReadPin (pinReads s.trace)
  (r, { s with trace := s.trace ++ [Event.HAL_GPIO_ReadPin r] })

/-- Call of `Gyro_Get_Velocity()`. -/
def Gyro_Get_Velocity (env : Env) (s : State) : Int × State :=
  let r := env.Gyro_Get_Velocity (gyroReads s.trace)
  (r, { s with trace := s.trace ++ [Event.Gyro_Get_Velocity r] })

/-- Call of `HAL_GPIO_WritePin` on one of the two LEDs. -/
def HAL_GPIO_WritePin (l : Led) (v : GPIO_PinState) (s : State) : State :=
  { s with trace := s.trace ++ [Event.HAL_GPIO_WritePin l v] }

/-- Call of `osDelay(ticks)`. -/
def osDelay (env : Env) (ticks : Nat) (s : State) : osStatus_t × State :=
  let r := env.osDelay (delayCalls s.trace)
  (r, { s with trace := s.trace ++ [Event.osDelay ticks r] })

/-! ## `app.c` -/

/-- `sampleUserButton`. -/
def sampleUserButton (env : Env) (s : State) : State :=
  let (r, s) := HAL_GPIO_ReadPin env s
  { s with buttonState := r }

/-- `getGyroRateOfRotation`. -/
def getGyroRateOfRotation (env : Env) (s : State) : gyroRotationRate × State :=
  let (v, s) := Gyro_Get_Velocity env s
  let s := { s with rawVelocity := wrapInt16 v }
  let gyroRate :=
    if s.rawVelocity ≤ gyroRotationRate.counterClockwiseFast.toInt then
      gyroRotationRate.counterClockwiseFast
    else if s.rawVelocity ≤ gyroRotationRate.counterClockwiseSlow.toInt then
      gyroRotationRate.counterClockwiseSlow
    else if s.rawVelocity < gyroRotationRate.clockwiseSlow.toInt then
      gyroRotationRate.nearlyZero
    else if s.rawVelocity < gyroRotationRate.clockwiseFast.toInt then
      gyroRotationRate.clockwiseSlow
    else
      gyroRotationRate.clockwiseFast
  (gyroRate, s)

/-- `driveLEDs`. -/
def driveLEDs (b : Build) (env : Env) (s : State) : State :=
  let s := if b.LAB1_USE_POLLING then sampleUserButton env s else s
  let (r, s) := getGyroRateOfRotation env s
  let s := { s with rotation := r }
  let s :=
    if s.buttonState = GPIO_PinState.GPIO_PIN_SET ∨
        s.rotation.toInt ≤ gyroRotationRate.counterClockwiseSlow.toInt then
      HAL_GPIO_WritePin Led.GREEN_LED GPIO_PinState.GPIO_PIN_SET s
    else
      HAL_GPIO_WritePin Led.GREEN_LED GPIO_PinState.GPIO_PIN_RESET s
  if s.buttonState = GPIO_PinState.GPIO_PIN_SET ∧
      s.rotation.toInt > gyroRotationRate.counterClockwiseSlow.toInt then
    HAL_GPIO_WritePin Led.RED_LED GPIO_PinState.GPIO_PIN_SET s
  else
    HAL_GPIO_WritePin Led.RED_LED GPIO_PinState.GPIO_PIN_RESET s

/-- `appTaskInit`. -/
def appTaskInit (env : Env) (s : State) : Outcome :=
  let s := { s with taskID := env.osThreadNew,
                    trace := s.trace ++ [Event.osThreadNew env.osThreadNew] }
  if s.taskID = NULL then Outcome.halted s else Outcome.returned s

/-- `validateAppTaskState`. -/
def validateAppTaskState (s : State) : Outcome :=
  match s.taskStatus with
  | .osThreadTerminated => Outcome.halted s
  | .osThreadError => Outcome.halted s
  | _ => Outcome.returned s

/-- `validateOSStatus`. -/
def validateOSStatus (s : State) : Outcome :=
  match s.osState with
  | .osOK => Outcome.returned s
  | _ => Outcome.halted s

/-- One pass through the body of the `while(1)` loop of `appTask`. -/
def appTaskBody (b : Build) (env : Env) (s : State) : Outcome :=
  let s := sampleUserButton env s
  let s := driveLEDs b env s
  let (r, s) := osDelay env TASK_DELAY s
  let s := { s with osState := r }
  validateOSStatus s

/-- `appTask`: the `while(1)` loop, run for at most `fuel` iterations. -/
def appTask (b : Build) (env : Env) : Nat → State → Outcome
  | 0, s => Outcome.running s
  | fuel + 1, s => (appTaskBody b env s).andThen (appTask b env fuel)

/-- `appTimerInit`. -/
def appTimerInit (env : Env) (s : State) : Outcome :=
  let s := { s with timerID := env.osTimerNew,
                    trace := s.trace ++ [Event.osTimerNew env.osTimerNew] }
  if s.timerID = NULL then Outcome.halted s else Outcome.returned s

/-- `validateAppTimerState`. -/
def validateAppTimerState (s : State) : Outcome :=
  match s.timerStatus with
  | .osOK => Outcome.returned s
  | _ => Outcome.halted s

/-- `appTimer_cb`. -/
def appTimer_cb (b : Build) (env : Env) (s : State) : State :=
  let s := sampleUserButton env s
  let (v, s) := Gyro_Get_Velocity env s
  let s := { s with rawVelocity := wrapInt16 v }
  driveLEDs b env s

/-- `appInit`. -/
def appInit (b : Build) (env : Env) (s : State) : Outcome :=
  (if b.LAB3_USE_TASK then appTaskInit env s else Outcome.returned s).andThen fun s =>
    if b.LAB3_USE_OS_TIMER then
      (appTimerInit env s).andThen fun s =>
        let s := { s with timerStatus := env.osTimerStart,
                          trace := s.trace ++ [Event.osTimerStart TIMER_PERIOD env.osTimerStart] }
        validateAppTimerState s
    else Outcome.returned s

/-- `EXTI0_IRQHandler`. -/
def EXTI0_IRQHandler (env : Env) (s : State) : State :=
  let s := { s with trace := s.trace ++ [Event.HAL_NVIC_DisableIRQ] }
  let s := sampleUserButton env s
  let s := { s with trace := s.trace ++ [Event.HAL_GPIO_EXTI_CLEAR_IT] }
  { s with trace := s.trace ++ [Event.HAL_NVIC_EnableIRQ] }

/-- `HAL_SYSTICK_Callback`. -/
def HAL_SYSTICK_Callback (b : Build) (env : Env) (s : State) : State :=
  let s := { s with sysTicks := wrapInt8 (s.sysTicks + 1) }
  if s.sysTicks = 100 then
    let s := driveLEDs b env s
    { s with sysTicks := 0 }
  else s

/-- The state after `n` invocations of `HAL_SYSTICK_Callback`. -/
def ticks (b : Build) (env : Env) : Nat → State → State
  | 0, s => s
  | n + 1, s => HAL_SYSTICK_Callback b env (ticks b env n s)

/-- The calls made between an earlier state `s` and a later state `t`. -/
def newEvents (s t : State) : List Event := t.trace.drop s.trace.length

/-- An environment whose pin always reads `p`, whose gyro always reads
`v`, whose `osDelay` always gives `d`, and whose creation calls succeed. -/
def Env.steady (p : GPIO_PinState) (v : Int) (d : osStatus_t) : Env :=
  { HAL_GPIO_ReadPin := fun _ => p, Gyro_Get_Velocity := fun _ => v,
    osDelay := fun _ => d, osThreadNew := 1, osTimerNew := 1,
    osTimerStart := osStatus_t.osOK }

/-- The band table of the specification (section 3): the condition on the
raw sample `v` that the table assigns to each band. -/
def tableCondition : gyroRotationRate → Int → Prop
  | .counterClockwiseFast, v => v ≤ -15000
  | .counterClockwiseSlow, v => -15000 < v ∧ v ≤ -2000
  | .nearlyZero, v => -2000 < v ∧ v < 2000
  | .clockwiseSlow, v => 2000 ≤ v ∧ v < 15000
  | .clockwiseFast, v => 15000 ≤ v

/-- The table conditions are decidable. -/
instance tableCondition.decidable (band : gyroRotationRate) (v : Int) :
    Decidable (tableCondition band v) := by
  cases band <;> unfold tableCondition <;> infer_instance

/-! ## Theorems -/

/-- Conversion to `int16_t` leaves a value of that range unchanged. -/
theorem wrapInt16_of_range (v : Int) (hlo : -32768 ≤ v) (hhi : v ≤ 32767) :
    wrapInt16 v = v := by
  unfold wrapInt16; omega

/-- What `getGyroRateOfRotation` returns, as a function of the stored
`int16_t` value. -/
theorem getGyroRateOfRotation_fst (env : Env) (s : State) :
    (getGyroRateOfRotation env s).1 =
      (let w := wrapInt16 (env.Gyro_Get_Velocity (gyroReads s.trace))
       if w ≤ -15000 then gyroRotationRate.counterClockwiseFast
       else if w ≤ -2000 then gyroRotationRate.counterClockwiseSlow
       else if w < 2000 then gyroRotationRate.nearlyZero
       else if w < 15000 then gyroRotationRate.clockwiseSlow
       else gyroRotationRate.clockwiseFast) := by
  simp [getGyroRateOfRotation, Gyro_Get_Velocity, gyroRotationRate.toInt]

/-- The state `getGyroRateOfRotation` leaves: one gyro read, stored in
`rawVelocity`. -/
theorem getGyroRateOfRotation_snd (env : Env) (s : State) :
    (getGyroRateOfRotation env s).2 =
      { s with rawVelocity := wrapInt16 (env.Gyro_Get_Velocity (gyroReads s.trace)),
               trace := s.trace ++
                 [Event.Gyro_Get_Velocity (env.Gyro_Get_Velocity (gyroReads s.trace))] } := by
  simp [getGyroRateOfRotation, Gyro_Get_Velocity]

/-- For a reading `v` of the `int16_t` range, the band returned is the one
whose table condition `v` meets. -/
theorem getGyroRateOfRotation_band_iff (env : Env) (s : State) (v : Int)
    (hv : env.Gyro_Get_Velocity (gyroReads s.trace) = v)
    (hlo : -32768 ≤ v) (hhi : v ≤ 32767) (band : gyroRotationRate) :
    (getGyroRateOfRotation env s).1 = band ↔ tableCondition band v := by
  rw [getGyroRateOfRotation_fst, hv, wrapInt16_of_range v hlo hhi]
  cases band <;> simp only [tableCondition] <;> split_ifs <;>
    simp <;> omega

/-- C1: for every signed 16-bit raw velocity `v` read from the gyro,
`getGyroRateOfRotation` returns exactly the band the table of the
specification assigns to `v`; the five conditions of the table are
exhaustive and pairwise exclusive (exactly one holds); and the boundary
values -15000, -2000, 2000, 15000 give counterClockwiseFast,
counterClockwiseSlow, clockwiseSlow, clockwiseFast. -/
theorem getGyroRateOfRotation_table (env : Env) (s : State) (v : Int)
    (hv : env.Gyro_Get_Velocity (gyroReads s.trace) = v)
    (hlo : -32768 ≤ v) (hhi : v ≤ 32767) :
    (∀ band, (getGyroRateOfRotation env s).1 = band ↔ tableCondition band v) ∧
    ((getGyroRateOfRotation env s).1 = gyroRotationRate.counterClockwiseFast ↔ v ≤ -15000) ∧
    ((getGyroRateOfRotation env s).1 = gyroRotationRate.counterClockwiseSlow ↔
      -15000 < v ∧ v ≤ -2000) ∧
    ((getGyroRateOfRotation env s).1 = gyroRotationRate.nearlyZero ↔ -2000 < v ∧ v < 2000) ∧
    ((getGyroRateOfRotation env s).1 = gyroRotationRate.clockwiseSlow ↔
      2000 ≤ v ∧ v < 15000) ∧
    ((getGyroRateOfRotation env s).1 = gyroRotationRate.clockwiseFast ↔ 15000 ≤ v) ∧
    (∃ band, tableCondition band v ∧ ∀ band', tableCondition band' v → band' = band) ∧
    (v = -15000 → (getGyroRateOfRotation env s).1 = gyroRotationRate.counterClockwiseFast) ∧
    (v = -2000 → (getGyroRateOfRotation env s).1 = gyroRotationRate.counterClockwiseSlow) ∧
    (v = 2000 → (getGyroRateOfRotation env s).1 = gyroRotationRate.clockwiseSlow) ∧
    (v = 15000 → (getGyroRateOfRotation env s).1 = gyroRotationRate.clockwiseFast) := by
  have key : ∀ band, (getGyroRateOfRotation env s).1 = band ↔ tableCondition band v :=
    getGyroRateOfRotation_band_iff env s v hv hlo hhi
  refine ⟨key, key _, key _, key _, key _, key _, ?_, ?_, ?_, ?_, ?_⟩
  · refine ⟨(getGyroRateOfRotation env s).1, (key _).1 rfl, ?_⟩
    intro band' h
    exact ((key band').2 h).symm
  · intro h; exact (key _).2 (by simp only [tableCondition]; omega)
  · intro h; exact (key _).2 (by simp only [tableCondition]; omega)
  · intro h; exact (key _).2 (by simp only [tableCondition]; omega)
  · intro h; exact (key _).2 (by simp only [tableCondition]; omega)

/-- Witness of C1: the boundary reading -15000 is classified
counterClockwiseFast. -/
theorem getGyroRateOfRotation_table_witness :
    (getGyroRateOfRotation
        (Env.steady GPIO_PinState.GPIO_PIN_RESET (-15000) osStatus_t.osOK) State.reset).1 =
      gyroRotationRate.counterClockwiseFast :=
  (getGyroRateOfRotation_table
      (Env.steady GPIO_PinState.GPIO_PIN_RESET (-15000) osStatus_t.osOK) State.reset (-15000)
      rfl (by decide) (by decide)).2.2.2.2.2.2.2.1 rfl

/-- C9, refuted as stated: at the raw velocity -2000, which lies in
`[-2000, 2000)`, `getGyroRateOfRotation` returns counterClockwiseSlow, not
nearlyZero. -/
theorem getGyroRateOfRotation_nearlyZero_closed_fails :
    (getGyroRateOfRotation
        (Env.steady GPIO_PinState.GPIO_PIN_RESET (-2000) osStatus_t.osOK) State.reset).1 =
      gyroRotationRate.counterClockwiseSlow ∧
    ¬ ((getGyroRateOfRotation
        (Env.steady GPIO_PinState.GPIO_PIN_RESET (-2000) osStatus_t.osOK) State.reset).1 =
      gyroRotationRate.nearlyZero ↔ ((-2000 : Int) ≤ -2000 ∧ (-2000 : Int) < 2000)) := by
  have h : (getGyroRateOfRotation
        (Env.steady GPIO_PinState.GPIO_PIN_RESET (-2000) osStatus_t.osOK) State.reset).1 =
      gyroRotationRate.counterClockwiseSlow := by decide
  refine ⟨h, ?_⟩
  rw [h]
  decide

/-- C9, amended: for every signed 16-bit raw velocity `v`,
`getGyroRateOfRotation` returns nearlyZero if and only if
`-2000 < v < 2000`: the band is the open interval (-2000, 2000). -/
theorem getGyroRateOfRotation_nearlyZero_iff (env : Env) (s : State) (v : Int)
    (hv : env.Gyro_Get_Velocity (gyroReads s.trace) = v)
    (hlo : -32768 ≤ v) (hhi : v ≤ 32767) :
    (getGyroRateOfRotation env s).1 = gyroRotationRate.nearlyZero ↔ -2000 < v ∧ v < 2000 := by
  rw [getGyroRateOfRotation_fst, hv, wrapInt16_of_range v hlo hhi]
  simp only []
  split_ifs <;> simp <;> omega

/-- Witness of the amended C9: the reading -1999 is classified nearlyZero. -/
theorem getGyroRateOfRotation_nearlyZero_iff_witness :
    (getGyroRateOfRotation
        (Env.steady GPIO_PinState.GPIO_PIN_SET (-1999) osStatus_t.osOK) State.reset).1 =
      gyroRotationRate.nearlyZero :=
  (getGyroRateOfRotation_nearlyZero_iff
      (Env.steady GPIO_PinState.GPIO_PIN_SET (-1999) osStatus_t.osOK) State.reset (-1999)
      rfl (by decide) (by decide)).2 (by decide)

/-- Sampling the button makes one pin read and stores its result. -/
theorem sampleUserButton_eq (env : Env) (s : State) :
    sampleUserButton env s =
      { s with buttonState := env.HAL_GPIO_ReadPin (pinReads s.trace),
               trace := s.trace ++
                 [Event.HAL_GPIO_ReadPin (env.HAL_GPIO_ReadPin (pinReads s.trace))] } := by
  simp [sampleUserButton, HAL_GPIO_ReadPin]

/-- The state in which `driveLEDs` reads the gyro: after the button sample
of the Polling build, unchanged otherwise. -/
theorem driveLEDs_eq (b : Build) (env : Env) (s : State) :
    driveLEDs b env s =
      (let s1 := if b.LAB1_USE_POLLING then sampleUserButton env s else s
       let v := env.Gyro_Get_Velocity (gyroReads s.trace)
       let band := (getGyroRateOfRotation env s).1
       let g := if s1.buttonState = GPIO_PinState.GPIO_PIN_SET ∨
                    band = gyroRotationRate.counterClockwiseFast ∨
                    band = gyroRotationRate.counterClockwiseSlow
                then GPIO_PinState.GPIO_PIN_SET else GPIO_PinState.GPIO_PIN_RESET
       let r := if s1.buttonState = GPIO_PinState.GPIO_PIN_SET ∧
                    band ≠ gyroRotationRate.counterClockwiseFast ∧
                    band ≠ gyroRotationRate.counterClockwiseSlow
                then GPIO_PinState.GPIO_PIN_SET else GPIO_PinState.GPIO_PIN_RESET
       { s1 with rawVelocity := wrapInt16 v, rotation := band,
                 trace := s1.trace ++ [Event.Gyro_Get_Velocity v,
                   Event.HAL_GPIO_WritePin Led.GREEN_LED g,
                   Event.HAL_GPIO_WritePin Led.RED_LED r] }) := by
  have hcnt : gyroReads (sampleUserButton env s).trace = gyroReads s.trace := by
    simp [sampleUserButton_eq, gyroReads, Event.isGyroRead]
  have hfst : ∀ t : State, gyroReads t.trace = gyroReads s.trace →
      (getGyroRateOfRotation env t).1 = (getGyroRateOfRotation env s).1 := by
    intro t ht
    rw [getGyroRateOfRotation_fst, getGyroRateOfRotation_fst, ht]
  cases hb : b.LAB1_USE_POLLING
  · obtain ⟨band, hband⟩ : ∃ band, (getGyroRateOfRotation env s).1 = band := ⟨_, rfl⟩
    cases band <;> cases hs : s.buttonState <;>
      simp [driveLEDs, hb, getGyroRateOfRotation_snd, HAL_GPIO_WritePin, hband,
        gyroRotationRate.toInt, hs]
  · have hband0 := hfst _ hcnt
    obtain ⟨band, hband⟩ : ∃ band, (getGyroRateOfRotation env s).1 = band := ⟨_, rfl⟩
    rw [hband] at hband0
    cases band <;> cases hs : (sampleUserButton env s).buttonState <;>
      simp [driveLEDs, hb, getGyroRateOfRotation_snd, HAL_GPIO_WritePin, hband, hband0,
        gyroRotationRate.toInt, hs, hcnt]

/-- The new calls are what was appended to the trace. -/
theorem newEvents_of_trace (s t : State) (l : List Event) (h : t.trace = s.trace ++ l) :
    newEvents s t = l := by
  simp [newEvents, h]

/-- The band is counter-clockwise exactly when the stored velocity is at
most -2000. -/
theorem getGyroRateOfRotation_ccw_iff (env : Env) (s : State) :
    ((getGyroRateOfRotation env s).1 = gyroRotationRate.counterClockwiseFast ∨
      (getGyroRateOfRotation env s).1 = gyroRotationRate.counterClockwiseSlow) ↔
    wrapInt16 (env.Gyro_Get_Velocity (gyroReads s.trace)) ≤ -2000 := by
  rw [getGyroRateOfRotation_fst]
  simp only []
  split_ifs <;> simp <;> omega

/-- A validator leaves the state as it is. -/
theorem validateOSStatus_state (s : State) : (validateOSStatus s).state = s := by
  unfold validateOSStatus
  split <;> rfl

/-- The calls one `driveLEDs` makes, the button state and band it leaves
stored, and the two values written as a function of them. -/
theorem driveLEDs_calls (b : Build) (env : Env) (s : State) :
    ∃ g r,
      (driveLEDs b env s).buttonState =
        (if b.LAB1_USE_POLLING then env.HAL_GPIO_ReadPin (pinReads s.trace)
         else s.buttonState) ∧
      (driveLEDs b env s).rotation = (getGyroRateOfRotation env s).1 ∧
      (driveLEDs b env s).trace =
        s.trace ++
          (if b.LAB1_USE_POLLING then
            [Event.HAL_GPIO_ReadPin (env.HAL_GPIO_ReadPin (pinReads s.trace))] else []) ++
          [Event.Gyro_Get_Velocity (env.Gyro_Get_Velocity (gyroReads s.trace)),
           Event.HAL_GPIO_WritePin Led.GREEN_LED g,
           Event.HAL_GPIO_WritePin Led.RED_LED r] ∧
      (g = GPIO_PinState.GPIO_PIN_SET ↔
        (driveLEDs b env s).buttonState = GPIO_PinState.GPIO_PIN_SET ∨
        (driveLEDs b env s).rotation = gyroRotationRate.counterClockwiseFast ∨
        (driveLEDs b env s).rotation = gyroRotationRate.counterClockwiseSlow) ∧
      (r = GPIO_PinState.GPIO_PIN_SET ↔
        (driveLEDs b env s).buttonState = GPIO_PinState.GPIO_PIN_SET ∧
        (driveLEDs b env s).rotation ≠ gyroRotationRate.counterClockwiseFast ∧
        (driveLEDs b env s).rotation ≠ gyroRotationRate.counterClockwiseSlow) := by
  rw [driveLEDs_eq]
  cases hb : b.LAB1_USE_POLLING
  · refine ⟨if s.buttonState = GPIO_PinState.GPIO_PIN_SET ∨
          (getGyroRateOfRotation env s).1 = gyroRotationRate.counterClockwiseFast ∨
          (getGyroRateOfRotation env s).1 = gyroRotationRate.counterClockwiseSlow
        then GPIO_PinState.GPIO_PIN_SET else GPIO_PinState.GPIO_PIN_RESET,
      if s.buttonState = GPIO_PinState.GPIO_PIN_SET ∧
          (getGyroRateOfRotation env s).1 ≠ gyroRotationRate.counterClockwiseFast ∧
          (getGyroRateOfRotation env s).1 ≠ gyroRotationRate.counterClockwiseSlow
        then GPIO_PinState.GPIO_PIN_SET else GPIO_PinState.GPIO_PIN_RESET, ?_, ?_, ?_, ?_, ?_⟩
    · simp
    · simp
    · simp
    · simp only [Bool.false_eq_true, if_false]
      split_ifs with h <;> simp [h]
    · simp only [Bool.false_eq_true, if_false]
      split_ifs with h <;> simp [h]
  · refine ⟨if env.HAL_GPIO_ReadPin (pinReads s.trace) = GPIO_PinState.GPIO_PIN_SET ∨
          (getGyroRateOfRotation env s).1 = gyroRotationRate.counterClockwiseFast ∨
          (getGyroRateOfRotation env s).1 = gyroRotationRate.counterClockwiseSlow
        then GPIO_PinState.GPIO_PIN_SET else GPIO_PinState.GPIO_PIN_RESET,
      if env.HAL_GPIO_ReadPin (pinReads s.trace) = GPIO_PinState.GPIO_PIN_SET ∧
          (getGyroRateOfRotation env s).1 ≠ gyroRotationRate.counterClockwiseFast ∧
          (getGyroRateOfRotation env s).1 ≠ gyroRotationRate.counterClockwiseSlow
        then GPIO_PinState.GPIO_PIN_SET else GPIO_PinState.GPIO_PIN_RESET, ?_, ?_, ?_, ?_, ?_⟩
    · simp [sampleUserButton_eq]
    · simp
    · simp [sampleUserButton_eq]
    · simp only [if_true, sampleUserButton_eq]
      split_ifs with h <;> simp [h]
    · simp only [if_true, sampleUserButton_eq]
      split_ifs with h <;> simp [h]

/-- C2: for every stored button state and every signed 16-bit raw velocity
`v` returned by the gyro, `driveLEDs` makes one green write and one red
write; green is SET iff the stored button state is GPIO_PIN_SET or the band
of `v` is counterClockwiseFast or counterClockwiseSlow; red is SET iff the
button state is GPIO_PIN_SET and the band is neither; otherwise RESET is
written.  The stored button state is the prior one, except in the Polling
build where it is the pin just sampled.  The four examples of the
specification follow. -/
theorem driveLEDs_policy (b : Build) (env : Env) (s : State) (v : Int)
    (hv : env.Gyro_Get_Velocity (gyroReads s.trace) = v)
    (hlo : -32768 ≤ v) (hhi : v ≤ 32767) :
    ∃ btn band g r,
      btn = (if b.LAB1_USE_POLLING then env.HAL_GPIO_ReadPin (pinReads s.trace)
             else s.buttonState) ∧
      (driveLEDs b env s).buttonState = btn ∧
      tableCondition band v ∧
      (driveLEDs b env s).rotation = band ∧
      (driveLEDs b env s).trace =
        s.trace ++
          (if b.LAB1_USE_POLLING then [Event.HAL_GPIO_ReadPin btn] else []) ++
          [Event.Gyro_Get_Velocity v,
           Event.HAL_GPIO_WritePin Led.GREEN_LED g,
           Event.HAL_GPIO_WritePin Led.RED_LED r] ∧
      (g = GPIO_PinState.GPIO_PIN_SET ↔
        btn = GPIO_PinState.GPIO_PIN_SET ∨
        band = gyroRotationRate.counterClockwiseFast ∨
        band = gyroRotationRate.counterClockwiseSlow) ∧
      (g = GPIO_PinState.GPIO_PIN_RESET ↔
        ¬ (btn = GPIO_PinState.GPIO_PIN_SET ∨
           band = gyroRotationRate.counterClockwiseFast ∨
           band = gyroRotationRate.counterClockwiseSlow)) ∧
      (r = GPIO_PinState.GPIO_PIN_SET ↔
        btn = GPIO_PinState.GPIO_PIN_SET ∧
        band ≠ gyroRotationRate.counterClockwiseFast ∧
        band ≠ gyroRotationRate.counterClockwiseSlow) ∧
      (r = GPIO_PinState.GPIO_PIN_RESET ↔
        ¬ (btn = GPIO_PinState.GPIO_PIN_SET ∧
           band ≠ gyroRotationRate.counterClockwiseFast ∧
           band ≠ gyroRotationRate.counterClockwiseSlow)) ∧
      (btn = GPIO_PinState.GPIO_PIN_SET → band = gyroRotationRate.counterClockwiseFast →
        g = GPIO_PinState.GPIO_PIN_SET ∧ r = GPIO_PinState.GPIO_PIN_RESET) ∧
      (btn = GPIO_PinState.GPIO_PIN_SET → band = gyroRotationRate.nearlyZero →
        g = GPIO_PinState.GPIO_PIN_SET ∧ r = GPIO_PinState.GPIO_PIN_SET) ∧
      (btn = GPIO_PinState.GPIO_PIN_RESET → band = gyroRotationRate.clockwiseFast →
        g = GPIO_PinState.GPIO_PIN_RESET ∧ r = GPIO_PinState.GPIO_PIN_RESET) ∧
      (btn = GPIO_PinState.GPIO_PIN_RESET → band = gyroRotationRate.counterClockwiseSlow →
        g = GPIO_PinState.GPIO_PIN_SET ∧ r = GPIO_PinState.GPIO_PIN_RESET) := by
  obtain ⟨g, r, hbtn, hrot, htr, hg, hr⟩ := driveLEDs_calls b env s
  have htab : tableCondition (driveLEDs b env s).rotation v := by
    rw [hrot]
    exact (getGyroRateOfRotation_band_iff env s v hv hlo hhi _).1 rfl
  have hgR : ∀ x : GPIO_PinState,
      x = GPIO_PinState.GPIO_PIN_RESET ↔ ¬ x = GPIO_PinState.GPIO_PIN_SET := by
    intro x; cases x <;> simp
  refine ⟨_, _, g, r, rfl, hbtn, htab, rfl, ?_, ?_, ?_, ?_, ?_, ?_, ?_, ?_, ?_⟩
  · rw [htr, hv]
    cases b.LAB1_USE_POLLING <;> simp
  · rw [← hbtn]; exact hg
  · rw [← hbtn, hgR, hg]
  · rw [← hbtn]; exact hr
  · rw [← hbtn, hgR, hr]
  · rw [← hbtn]
    intro h1 h2
    rw [hgR r, hg, hr]
    simp [h1, h2]
  · rw [← hbtn]
    intro h1 h2
    rw [hg, hr]
    simp [h1, h2]
  · rw [← hbtn]
    intro h1 h2
    rw [hgR g, hgR r, hg, hr]
    simp [h1, h2]
  · rw [← hbtn]
    intro h1 h2
    rw [hgR r, hg, hr]
    simp [h1, h2]

/-- Witness of C2: button pressed and a gyro reading of 0 (nearlyZero) drive
both LEDs on. -/
theorem driveLEDs_policy_witness :
    ∃ g r,
      (driveLEDs Build.task
          (Env.steady GPIO_PinState.GPIO_PIN_SET 0 osStatus_t.osOK)
          { State.reset with buttonState := GPIO_PinState.GPIO_PIN_SET }).trace =
        [Event.Gyro_Get_Velocity 0,
         Event.HAL_GPIO_WritePin Led.GREEN_LED g,
         Event.HAL_GPIO_WritePin Led.RED_LED r] ∧
      g = GPIO_PinState.GPIO_PIN_SET ∧ r = GPIO_PinState.GPIO_PIN_SET := by
  obtain ⟨btn, band, g, r, hbtn, -, htab, -, htr, -, -, -, -, -, h, -, -⟩ :=
    driveLEDs_policy Build.task
      (Env.steady GPIO_PinState.GPIO_PIN_SET 0 osStatus_t.osOK)
      { State.reset with buttonState := GPIO_PinState.GPIO_PIN_SET } 0
      rfl (by decide) (by decide)
  have hband : band = gyroRotationRate.nearlyZero := by
    cases band <;> simp [tableCondition] at htab ⊢
  refine ⟨g, r, ?_, h hbtn hband⟩
  rw [htr]
  rfl

/-- C10: in every call of `driveLEDs`, for every button state and every
gyro reading, if the red LED is written SET then the green LED has been
written SET in the same call (never red on with green off), and the stored
button state is GPIO_PIN_SET. -/
theorem driveLEDs_red_implies_green (b : Build) (env : Env) (s : State) :
    ∃ g r,
      newEvents s (driveLEDs b env s) =
        (if b.LAB1_USE_POLLING then
          [Event.HAL_GPIO_ReadPin (env.HAL_GPIO_ReadPin (pinReads s.trace))] else []) ++
        [Event.Gyro_Get_Velocity (env.Gyro_Get_Velocity (gyroReads s.trace)),
         Event.HAL_GPIO_WritePin Led.GREEN_LED g,
         Event.HAL_GPIO_WritePin Led.RED_LED r] ∧
      (r = GPIO_PinState.GPIO_PIN_SET → g = GPIO_PinState.GPIO_PIN_SET) ∧
      ¬ (r = GPIO_PinState.GPIO_PIN_SET ∧ g = GPIO_PinState.GPIO_PIN_RESET) ∧
      (r = GPIO_PinState.GPIO_PIN_SET →
        (driveLEDs b env s).buttonState = GPIO_PinState.GPIO_PIN_SET) := by
  obtain ⟨g, r, -, -, htr, hg, hr⟩ := driveLEDs_calls b env s
  have h1 : r = GPIO_PinState.GPIO_PIN_SET → g = GPIO_PinState.GPIO_PIN_SET :=
    fun h => hg.2 (Or.inl (hr.1 h).1)
  refine ⟨g, r, ?_, h1, ?_, fun h => (hr.1 h).1⟩
  · simp [newEvents, htr, List.append_assoc]
  · rintro ⟨h, h2⟩
    rw [h1 h] at h2
    cases h2

/-- The calls of one pass through the body of the task loop, in any build
without the Polling switch: pin read, gyro read, green write, red write,
`osDelay`. -/
theorem appTaskBody_calls (b : Build) (env : Env) (s : State)
    (hb : b.LAB1_USE_POLLING = false) :
    ∃ g r,
      (appTaskBody b env s).state.trace =
        s.trace ++
          [Event.HAL_GPIO_ReadPin (env.HAL_GPIO_ReadPin (pinReads s.trace)),
           Event.Gyro_Get_Velocity (env.Gyro_Get_Velocity (gyroReads s.trace)),
           Event.HAL_GPIO_WritePin Led.GREEN_LED g,
           Event.HAL_GPIO_WritePin Led.RED_LED r,
           Event.osDelay TASK_DELAY (env.osDelay (delayCalls s.trace))] ∧
      (appTaskBody b env s).state.osState = env.osDelay (delayCalls s.trace) ∧
      (g = GPIO_PinState.GPIO_PIN_SET ↔
        env.HAL_GPIO_ReadPin (pinReads s.trace) = GPIO_PinState.GPIO_PIN_SET ∨
        wrapInt16 (env.Gyro_Get_Velocity (gyroReads s.trace)) ≤ -2000) ∧
      (r = GPIO_PinState.GPIO_PIN_SET ↔
        env.HAL_GPIO_ReadPin (pinReads s.trace) = GPIO_PinState.GPIO_PIN_SET ∧
        -2000 < wrapInt16 (env.Gyro_Get_Velocity (gyroReads s.trace))) := by
  obtain ⟨g, r, hbtn, hrot, htr, hg, hr⟩ := driveLEDs_calls b env (sampleUserButton env s)
  have hcnt : gyroReads (sampleUserButton env s).trace = gyroReads s.trace := by
    simp [sampleUserButton_eq, gyroReads, Event.isGyroRead]
  have hccw := getGyroRateOfRotation_ccw_iff env (sampleUserButton env s)
  rw [hcnt] at hccw
  rw [hb] at hbtn htr
  simp only [Bool.false_eq_true, if_false, List.append_nil] at hbtn htr
  rw [hbtn, hrot] at hg hr
  rw [← not_or, hccw] at hr
  rw [hccw] at hg
  rw [hcnt] at htr
  have hd : delayCalls (driveLEDs b env (sampleUserButton env s)).trace = delayCalls s.trace := by
    rw [htr]
    simp [sampleUserButton_eq, delayCalls, Event.isDelay]
  refine ⟨g, r, ?_, ?_, ?_, ?_⟩
  · simp only [appTaskBody, osDelay, validateOSStatus_state, hd]
    rw [htr]
    simp [sampleUserButton_eq]
  · simp only [appTaskBody, osDelay, validateOSStatus_state, hd]
  · rw [hg]; simp [sampleUserButton_eq]
  · rw [hr]; simp [sampleUserButton_eq]

/-- The calls of one timer callback, in any build without the Polling
switch: pin read, two gyro reads, green write, red write; the decision
uses the second gyro reading. -/
theorem appTimer_cb_calls (b : Build) (env : Env) (s : State)
    (hb : b.LAB1_USE_POLLING = false) :
    ∃ g r,
      (appTimer_cb b env s).trace =
        s.trace ++
          [Event.HAL_GPIO_ReadPin (env.HAL_GPIO_ReadPin (pinReads s.trace)),
           Event.Gyro_Get_Velocity (env.Gyro_Get_Velocity (gyroReads s.trace)),
           Event.Gyro_Get_Velocity (env.Gyro_Get_Velocity (gyroReads s.trace + 1)),
           Event.HAL_GPIO_WritePin Led.GREEN_LED g,
           Event.HAL_GPIO_WritePin Led.RED_LED r] ∧
      (g = GPIO_PinState.GPIO_PIN_SET ↔
        env.HAL_GPIO_ReadPin (pinReads s.trace) = GPIO_PinState.GPIO_PIN_SET ∨
        wrapInt16 (env.Gyro_Get_Velocity (gyroReads s.trace + 1)) ≤ -2000) ∧
      (r = GPIO_PinState.GPIO_PIN_SET ↔
        env.HAL_GPIO_ReadPin (pinReads s.trace) = GPIO_PinState.GPIO_PIN_SET ∧
        -2000 < wrapInt16 (env.Gyro_Get_Velocity (gyroReads s.trace + 1))) := by
  have hcnt : gyroReads (sampleUserButton env s).trace = gyroReads s.trace := by
    simp [sampleUserButton_eq, gyroReads, Event.isGyroRead]
  obtain ⟨s2, hs2⟩ : ∃ s2 : State, s2 =
      { sampleUserButton env s with
        rawVelocity := wrapInt16 (env.Gyro_Get_Velocity (gyroReads s.trace)),
        trace := (sampleUserButton env s).trace ++
          [Event.Gyro_Get_Velocity (env.Gyro_Get_Velocity (gyroReads s.trace))] } := ⟨_, rfl⟩
  have hcb : appTimer_cb b env s = driveLEDs b env s2 := by
    simp only [appTimer_cb, Gyro_Get_Velocity, hcnt, hs2]
  have hcnt2 : gyroReads s2.trace = gyroReads s.trace + 1 := by
    rw [hs2]
    simp [sampleUserButton_eq, gyroReads, Event.isGyroRead]
  have hbtn2 : s2.buttonState = env.HAL_GPIO_ReadPin (pinReads s.trace) := by
    rw [hs2]; simp [sampleUserButton_eq]
  have htr2 : s2.trace = s.trace ++
      [Event.HAL_GPIO_ReadPin (env.HAL_GPIO_ReadPin (pinReads s.trace)),
       Event.Gyro_Get_Velocity (env.Gyro_Get_Velocity (gyroReads s.trace))] := by
    rw [hs2]; simp [sampleUserButton_eq]
  obtain ⟨g, r, hbtn, hrot, htr, hg, hr⟩ := driveLEDs_calls b env s2
  have hccw := getGyroRateOfRotation_ccw_iff env s2
  rw [hcnt2] at hccw
  rw [hb] at hbtn htr
  simp only [Bool.false_eq_true, if_false, List.append_nil] at hbtn htr
  rw [hbtn, hrot, hbtn2] at hg hr
  rw [← not_or, hccw] at hr
  rw [hccw] at hg
  rw [hcnt2, htr2] at htr
  refine ⟨g, r, ?_, hg, ?_⟩
  · rw [hcb, htr]; simp
  · rw [hr]; simp

/-- A pin value that is SET exactly under a condition is the conditional
value. -/
theorem pin_eq_ite (x : GPIO_PinState) (c : Prop) [Decidable c]
    (h : x = GPIO_PinState.GPIO_PIN_SET ↔ c) :
    x = if c then GPIO_PinState.GPIO_PIN_SET else GPIO_PinState.GPIO_PIN_RESET := by
  by_cases hc : c
  · simp [hc, h.2 hc]
  · have : ¬ x = GPIO_PinState.GPIO_PIN_SET := fun hx => hc (h.1 hx)
    cases x <;> simp_all

/-- The calls of one `driveLEDs` of the Polling build, with the written
values in terms of the pin and gyro readings. -/
theorem driveLEDs_polling_calls (b : Build) (env : Env) (s : State)
    (hb : b.LAB1_USE_POLLING = true) :
    ∃ g r,
      (driveLEDs b env s).trace =
        s.trace ++
          [Event.HAL_GPIO_ReadPin (env.HAL_GPIO_ReadPin (pinReads s.trace)),
           Event.Gyro_Get_Velocity (env.Gyro_Get_Velocity (gyroReads s.trace)),
           Event.HAL_GPIO_WritePin Led.GREEN_LED g,
           Event.HAL_GPIO_WritePin Led.RED_LED r] ∧
      (g = GPIO_PinState.GPIO_PIN_SET ↔
        env.HAL_GPIO_ReadPin (pinReads s.trace) = GPIO_PinState.GPIO_PIN_SET ∨
        wrapInt16 (env.Gyro_Get_Velocity (gyroReads s.trace)) ≤ -2000) ∧
      (r = GPIO_PinState.GPIO_PIN_SET ↔
        env.HAL_GPIO_ReadPin (pinReads s.trace) = GPIO_PinState.GPIO_PIN_SET ∧
        -2000 < wrapInt16 (env.Gyro_Get_Velocity (gyroReads s.trace))) := by
  obtain ⟨g, r, hbtn, hrot, htr, hg, hr⟩ := driveLEDs_calls b env s
  have hccw := getGyroRateOfRotation_ccw_iff env s
  rw [hb] at hbtn htr
  simp only [if_true] at hbtn htr
  rw [hbtn, hrot] at hg hr
  rw [← not_or, hccw] at hr
  rw [hccw] at hg
  refine ⟨g, r, ?_, hg, ?_⟩
  · rw [htr]; simp
  · rw [hr]; simp

/-- The calls of one `driveLEDs` of a build without the Polling switch,
with the written values in terms of the stored button state and the gyro
reading. -/
theorem driveLEDs_stored_calls (b : Build) (env : Env) (s : State)
    (hb : b.LAB1_USE_POLLING = false) :
    ∃ g r,
      (driveLEDs b env s).trace =
        s.trace ++
          [Event.Gyro_Get_Velocity (env.Gyro_Get_Velocity (gyroReads s.trace)),
           Event.HAL_GPIO_WritePin Led.GREEN_LED g,
           Event.HAL_GPIO_WritePin Led.RED_LED r] ∧
      (g = GPIO_PinState.GPIO_PIN_SET ↔
        s.buttonState = GPIO_PinState.GPIO_PIN_SET ∨
        wrapInt16 (env.Gyro_Get_Velocity (gyroReads s.trace)) ≤ -2000) ∧
      (r = GPIO_PinState.GPIO_PIN_SET ↔
        s.buttonState = GPIO_PinState.GPIO_PIN_SET ∧
        -2000 < wrapInt16 (env.Gyro_Get_Velocity (gyroReads s.trace))) := by
  obtain ⟨g, r, hbtn, hrot, htr, hg, hr⟩ := driveLEDs_calls b env s
  have hccw := getGyroRateOfRotation_ccw_iff env s
  rw [hb] at hbtn htr
  simp only [Bool.false_eq_true, if_false, List.append_nil] at hbtn htr
  rw [hbtn, hrot] at hg hr
  rw [← not_or, hccw] at hr
  rw [hccw] at hg
  refine ⟨g, r, htr, hg, ?_⟩
  rw [hr]; simp

/-- C7: there are two functions `G`, `R` of the pin reading and the gyro
reading alone such that, for every pin reading `p`, gyro reading `v` and
prior states, one Polling cycle, one TaskDriven loop iteration and one
TimerDriven callback, run with the pin reading `p` and every gyro read
returning `v`, each perform exactly the LED writes green `G p v` then red
`R p v`; green is SET iff the pin is SET or the stored velocity is at most
-2000, red is SET iff the pin is SET and the stored velocity is above
-2000. -/
theorem decision_same_under_every_strategy :
    ∃ G R : GPIO_PinState → Int → GPIO_PinState,
      (∀ p v, G p v = GPIO_PinState.GPIO_PIN_SET ↔
        p = GPIO_PinState.GPIO_PIN_SET ∨ wrapInt16 v ≤ -2000) ∧
      (∀ p v, R p v = GPIO_PinState.GPIO_PIN_SET ↔
        p = GPIO_PinState.GPIO_PIN_SET ∧ -2000 < wrapInt16 v) ∧
      ∀ (p : GPIO_PinState) (v : Int) (env : Env) (s1 s2 s3 : State),
        (newEvents s1
            (driveLEDs Build.polling
              { env with HAL_GPIO_ReadPin := fun _ => p, Gyro_Get_Velocity := fun _ => v }
              s1)).filter Event.isLedWrite =
          [Event.HAL_GPIO_WritePin Led.GREEN_LED (G p v),
           Event.HAL_GPIO_WritePin Led.RED_LED (R p v)] ∧
        (newEvents s2
            (appTaskBody Build.task
              { env with HAL_GPIO_ReadPin := fun _ => p, Gyro_Get_Velocity := fun _ => v }
              s2).state).filter Event.isLedWrite =
          [Event.HAL_GPIO_WritePin Led.GREEN_LED (G p v),
           Event.HAL_GPIO_WritePin Led.RED_LED (R p v)] ∧
        (newEvents s3
            (appTimer_cb Build.timer
              { env with HAL_GPIO_ReadPin := fun _ => p, Gyro_Get_Velocity := fun _ => v }
              s3)).filter Event.isLedWrite =
          [Event.HAL_GPIO_WritePin Led.GREEN_LED (G p v),
           Event.HAL_GPIO_WritePin Led.RED_LED (R p v)] := by
  refine ⟨fun p v => if p = GPIO_PinState.GPIO_PIN_SET ∨ wrapInt16 v ≤ -2000
      then GPIO_PinState.GPIO_PIN_SET else GPIO_PinState.GPIO_PIN_RESET,
    fun p v => if p = GPIO_PinState.GPIO_PIN_SET ∧ -2000 < wrapInt16 v
      then GPIO_PinState.GPIO_PIN_SET else GPIO_PinState.GPIO_PIN_RESET, ?_, ?_, ?_⟩
  · intro p v
    by_cases h : p = GPIO_PinState.GPIO_PIN_SET ∨ wrapInt16 v ≤ -2000 <;> simp [h]
  · intro p v
    by_cases h : p = GPIO_PinState.GPIO_PIN_SET ∧ -2000 < wrapInt16 v <;> simp [h]
  · intro p v env s1 s2 s3
    refine ⟨?_, ?_, ?_⟩
    · obtain ⟨g, r, htr, hg, hr⟩ := driveLEDs_polling_calls Build.polling
        { env with HAL_GPIO_ReadPin := fun _ => p, Gyro_Get_Velocity := fun _ => v } s1 rfl
      rw [newEvents_of_trace _ _ _ htr, pin_eq_ite g _ hg, pin_eq_ite r _ hr]
      rfl
    · obtain ⟨g, r, htr, -, hg, hr⟩ := appTaskBody_calls Build.task
        { env with HAL_GPIO_ReadPin := fun _ => p, Gyro_Get_Velocity := fun _ => v } s2 rfl
      rw [newEvents_of_trace _ _ _ htr, pin_eq_ite g _ hg, pin_eq_ite r _ hr]
      rfl
    · obtain ⟨g, r, htr, hg, hr⟩ := appTimer_cb_calls Build.timer
        { env with HAL_GPIO_ReadPin := fun _ => p, Gyro_Get_Velocity := fun _ => v } s3 rfl
      rw [newEvents_of_trace _ _ _ htr, pin_eq_ite g _ hg, pin_eq_ite r _ hr]
      rfl

/-- C8, evaluated on the code: one `appTimer_cb` invocation of the
TimerDriven build reads the gyro twice (the first value is overwritten
before it is used), while one Polling `driveLEDs`, one tick-triggered
`driveLEDs` of the InterruptDriven build and one iteration of the task loop
each read it exactly once. -/
theorem appTimer_cb_reads_gyro_twice (env : Env) (s : State) :
    gyroReads (newEvents s (appTimer_cb Build.timer env s)) = 2 ∧
    (∃ g r, newEvents s (appTimer_cb Build.timer env s) =
      [Event.HAL_GPIO_ReadPin (env.HAL_GPIO_ReadPin (pinReads s.trace)),
       Event.Gyro_Get_Velocity (env.Gyro_Get_Velocity (gyroReads s.trace)),
       Event.Gyro_Get_Velocity (env.Gyro_Get_Velocity (gyroReads s.trace + 1)),
       Event.HAL_GPIO_WritePin Led.GREEN_LED g,
       Event.HAL_GPIO_WritePin Led.RED_LED r]) ∧
    (appTimer_cb Build.timer env s).rawVelocity =
      wrapInt16 (env.Gyro_Get_Velocity (gyroReads s.trace + 1)) ∧
    gyroReads (newEvents s (driveLEDs Build.polling env s)) = 1 ∧
    gyroReads (newEvents s (driveLEDs Build.interrupt env s)) = 1 ∧
    gyroReads (newEvents s (appTaskBody Build.task env s).state) = 1 := by
  obtain ⟨g, r, htr, -, -⟩ := appTimer_cb_calls Build.timer env s rfl
  obtain ⟨g1, r1, htr1, -, -⟩ := driveLEDs_polling_calls Build.polling env s rfl
  obtain ⟨g2, r2, htr2, -, -⟩ := driveLEDs_stored_calls Build.interrupt env s rfl
  obtain ⟨g3, r3, htr3, -, -, -⟩ := appTaskBody_calls Build.task env s rfl
  refine ⟨?_, ⟨g, r, newEvents_of_trace _ _ _ htr⟩, ?_, ?_, ?_, ?_⟩
  · rw [newEvents_of_trace _ _ _ htr]; rfl
  · simp [appTimer_cb, driveLEDs_eq, Build.timer, Gyro_Get_Velocity, sampleUserButton_eq,
      gyroReads, Event.isGyroRead]
  · rw [newEvents_of_trace _ _ _ htr1]; rfl
  · rw [newEvents_of_trace _ _ _ htr2]; rfl
  · rw [newEvents_of_trace _ _ _ htr3]; rfl

/-- C3: in the TaskDriven build, when `osThreadNew` returns NULL, and in
the TimerDriven build, when `osTimerNew` returns NULL, `appInit` ends in the
halt loop (it does not return), and the only call made since its start is
the failed creation call: no pin read, no gyro read, no LED write and no
`osTimerStart`. -/
theorem appInit_creation_failure_halts (env : Env) (s : State) :
    appInit Build.task { env with osThreadNew := NULL } s =
      Outcome.halted { s with taskID := NULL, trace := s.trace ++ [Event.osThreadNew NULL] } ∧
    appInit Build.timer { env with osTimerNew := NULL } s =
      Outcome.halted { s with timerID := NULL, trace := s.trace ++ [Event.osTimerNew NULL] } ∧
    (∀ t, appInit Build.task { env with osThreadNew := NULL } s ≠ Outcome.returned t) ∧
    (∀ t, appInit Build.timer { env with osTimerNew := NULL } s ≠ Outcome.returned t) ∧
    newEvents s (appInit Build.task { env with osThreadNew := NULL } s).state =
      [Event.osThreadNew NULL] ∧
    newEvents s (appInit Build.timer { env with osTimerNew := NULL } s).state =
      [Event.osTimerNew NULL] ∧
    (∀ e ∈ newEvents s (appInit Build.task { env with osThreadNew := NULL } s).state,
      e.isPinRead = false ∧ e.isGyroRead = false ∧ e.isLedWrite = false ∧
      e.isTimerStart = false) ∧
    (∀ e ∈ newEvents s (appInit Build.timer { env with osTimerNew := NULL } s).state,
      e.isPinRead = false ∧ e.isGyroRead = false ∧ e.isLedWrite = false ∧
      e.isTimerStart = false) := by
  have h1 : appInit Build.task { env with osThreadNew := NULL } s =
      Outcome.halted { s with taskID := NULL, trace := s.trace ++ [Event.osThreadNew NULL] } := by
    simp [appInit, Build.task, appTaskInit, Outcome.andThen]
  have h2 : appInit Build.timer { env with osTimerNew := NULL } s =
      Outcome.halted { s with timerID := NULL, trace := s.trace ++ [Event.osTimerNew NULL] } := by
    simp [appInit, Build.timer, appTimerInit, Outcome.andThen]
  have n1 : newEvents s (appInit Build.task { env with osThreadNew := NULL } s).state =
      [Event.osThreadNew NULL] := by
    rw [h1]; exact newEvents_of_trace _ _ _ rfl
  have n2 : newEvents s (appInit Build.timer { env with osTimerNew := NULL } s).state =
      [Event.osTimerNew NULL] := by
    rw [h2]; exact newEvents_of_trace _ _ _ rfl
  refine ⟨h1, h2, ?_, ?_, n1, n2, ?_, ?_⟩
  · intro t; rw [h1]; simp
  · intro t; rw [h2]; simp
  · intro e he
    rw [n1] at he
    simp at he
    subst he
    simp [Event.isPinRead, Event.isGyroRead, Event.isLedWrite, Event.isTimerStart]
  · intro e he
    rw [n2] at he
    simp at he
    subst he
    simp [Event.isPinRead, Event.isGyroRead, Event.isLedWrite, Event.isTimerStart]

/-- When the creation call succeeds, `appInit` of the TaskDriven build
returns, and `appInit` of the TimerDriven build goes on to start the timer. -/
theorem appInit_creation_success (env : Env) (s : State) :
    (env.osThreadNew ≠ NULL →
      appInit Build.task env s =
        Outcome.returned { s with taskID := env.osThreadNew,
                                  trace := s.trace ++ [Event.osThreadNew env.osThreadNew] }) ∧
    (env.osTimerNew ≠ NULL →
      (appInit Build.timer env s).state.trace =
        s.trace ++ [Event.osTimerNew env.osTimerNew,
                    Event.osTimerStart TIMER_PERIOD env.osTimerStart]) := by
  refine ⟨?_, ?_⟩
  · intro h
    simp [appInit, Build.task, appTaskInit, Outcome.andThen, h]
  · intro h
    simp only [appInit, Build.timer, appTimerInit, h, Outcome.andThen, Bool.false_eq_true,
      if_false, if_true]
    unfold validateAppTimerState
    split <;> simp [Outcome.state]

/-- C5, refuted as stated for `validateAppTaskState`: it returns normally
for osThreadReady and for osThreadRunning, so there is no single status for
which alone it returns. -/
theorem validateAppTaskState_not_single_success :
    validateAppTaskState { State.reset with taskStatus := osThreadState_t.osThreadReady } =
      Outcome.returned { State.reset with taskStatus := osThreadState_t.osThreadReady } ∧
    validateAppTaskState { State.reset with taskStatus := osThreadState_t.osThreadRunning } =
      Outcome.returned { State.reset with taskStatus := osThreadState_t.osThreadRunning } ∧
    ¬ ∃ ok : osThreadState_t, ∀ st : osThreadState_t,
        (validateAppTaskState { State.reset with taskStatus := st } =
          Outcome.returned { State.reset with taskStatus := st }) ↔ st = ok := by
  refine ⟨rfl, rfl, ?_⟩
  rintro ⟨ok, h⟩
  have h1 : osThreadState_t.osThreadReady = ok := (h _).1 rfl
  have h2 : osThreadState_t.osThreadRunning = ok := (h _).1 rfl
  rw [← h1] at h2
  cases h2

/-- C5, amended: `validateOSStatus` and `validateAppTimerState` return
normally exactly when their status is osOK and halt for every other status;
`validateAppTaskState` halts exactly when the thread state is
osThreadTerminated or osThreadError and returns normally for every other
thread state. -/
theorem validators_fatal_statuses (s : State) :
    (validateOSStatus s = Outcome.returned s ↔ s.osState = osStatus_t.osOK) ∧
    (validateOSStatus s = Outcome.halted s ↔ s.osState ≠ osStatus_t.osOK) ∧
    (validateAppTimerState s = Outcome.returned s ↔ s.timerStatus = osStatus_t.osOK) ∧
    (validateAppTimerState s = Outcome.halted s ↔ s.timerStatus ≠ osStatus_t.osOK) ∧
    (validateAppTaskState s = Outcome.halted s ↔
      s.taskStatus = osThreadState_t.osThreadTerminated ∨
      s.taskStatus = osThreadState_t.osThreadError) ∧
    (validateAppTaskState s = Outcome.returned s ↔
      ¬ (s.taskStatus = osThreadState_t.osThreadTerminated ∨
         s.taskStatus = osThreadState_t.osThreadError)) := by
  refine ⟨?_, ?_, ?_, ?_, ?_, ?_⟩
  · unfold validateOSStatus
    cases h : s.osState <;> simp
  · unfold validateOSStatus
    cases h : s.osState <;> simp
  · unfold validateAppTimerState
    cases h : s.timerStatus <;> simp
  · unfold validateAppTimerState
    cases h : s.timerStatus <;> simp
  · unfold validateAppTaskState
    cases h : s.taskStatus <;> simp
  · unfold validateAppTaskState
    cases h : s.taskStatus <;> simp

/-- The validator of the delay status returns exactly on osOK. -/
theorem validateOSStatus_eq (s : State) :
    validateOSStatus s =
      if s.osState = osStatus_t.osOK then Outcome.returned s else Outcome.halted s := by
  unfold validateOSStatus
  cases h : s.osState <;> simp

/-- One pass through the task loop body returns when `osDelay` gave osOK
and halts otherwise. -/
theorem appTaskBody_outcome (b : Build) (env : Env) (s : State)
    (hb : b.LAB1_USE_POLLING = false) :
    appTaskBody b env s =
      if env.osDelay (delayCalls s.trace) = osStatus_t.osOK
      then Outcome.returned (appTaskBody b env s).state
      else Outcome.halted (appTaskBody b env s).state := by
  obtain ⟨g, r, -, hos, -, -⟩ := appTaskBody_calls b env s hb
  have h1 : appTaskBody b env s = validateOSStatus (appTaskBody b env s).state := by
    simp only [appTaskBody, validateOSStatus_state]
  rw [← hos]
  conv_lhs => rw [h1]
  exact validateOSStatus_eq _

/-- The numbers of pin reads, gyro reads, green writes, red writes and
`osDelay` calls that one pass through the task loop body adds. -/
theorem appTaskBody_counts (b : Build) (env : Env) (s : State)
    (hb : b.LAB1_USE_POLLING = false) :
    pinReads (appTaskBody b env s).state.trace = pinReads s.trace + 1 ∧
    gyroReads (appTaskBody b env s).state.trace = gyroReads s.trace + 1 ∧
    writesOf Led.GREEN_LED (appTaskBody b env s).state.trace =
      writesOf Led.GREEN_LED s.trace + 1 ∧
    writesOf Led.RED_LED (appTaskBody b env s).state.trace =
      writesOf Led.RED_LED s.trace + 1 ∧
    delayCalls (appTaskBody b env s).state.trace = delayCalls s.trace + 1 := by
  obtain ⟨g, r, htr, -, -, -⟩ := appTaskBody_calls b env s hb
  rw [htr]
  simp [pinReads, gyroReads, writesOf, delayCalls, Event.isPinRead, Event.isGyroRead,
    Event.isWriteOf, Event.isDelay]

/-- With `k` leading osOK results of `osDelay` followed by another result,
the task loop halts once it has run `k + 1` iterations, having made `k + 1`
calls of each kind. -/
theorem appTask_halts_after (env : Env) :
    ∀ (k : Nat) (s : State),
      (∀ i, i < k → env.osDelay (delayCalls s.trace + i) = osStatus_t.osOK) →
      env.osDelay (delayCalls s.trace + k) ≠ osStatus_t.osOK →
      ∀ fuel, k + 1 ≤ fuel →
        ∃ t, appTask Build.task env fuel s = Outcome.halted t ∧
          pinReads t.trace = pinReads s.trace + (k + 1) ∧
          gyroReads t.trace = gyroReads s.trace + (k + 1) ∧
          writesOf Led.GREEN_LED t.trace = writesOf Led.GREEN_LED s.trace + (k + 1) ∧
          writesOf Led.RED_LED t.trace = writesOf Led.RED_LED s.trace + (k + 1) ∧
          delayCalls t.trace = delayCalls s.trace + (k + 1) := by
  intro k
  induction k with
  | zero =>
    intro s _ hbad fuel hfuel
    obtain ⟨f, rfl⟩ : ∃ f, fuel = f + 1 := ⟨fuel - 1, by omega⟩
    obtain ⟨c1, c2, c3, c4, c5⟩ := appTaskBody_counts Build.task env s rfl
    refine ⟨(appTaskBody Build.task env s).state, ?_, c1, c2, c3, c4, c5⟩
    have hbody := appTaskBody_outcome Build.task env s rfl
    rw [if_neg (by simpa using hbad)] at hbody
    rw [appTask, hbody]
    rfl
  | succ k ih =>
    intro s hok hbad fuel hfuel
    obtain ⟨f, rfl⟩ : ∃ f, fuel = f + 1 := ⟨fuel - 1, by omega⟩
    obtain ⟨c1, c2, c3, c4, c5⟩ := appTaskBody_counts Build.task env s rfl
    have hbody := appTaskBody_outcome Build.task env s rfl
    rw [if_pos (by simpa using hok 0 (Nat.succ_pos k))] at hbody
    have hok2 : ∀ i, i < k →
        env.osDelay (delayCalls (appTaskBody Build.task env s).state.trace + i) =
          osStatus_t.osOK := by
      intro i hi
      rw [c5, Nat.add_assoc, Nat.add_comm 1 i]
      exact hok (i + 1) (by omega)
    have hbad2 :
        env.osDelay (delayCalls (appTaskBody Build.task env s).state.trace + k) ≠
          osStatus_t.osOK := by
      rw [c5, Nat.add_assoc, Nat.add_comm 1 k]
      exact hbad
    obtain ⟨t, ht, d1, d2, d3, d4, d5⟩ :=
      ih (appTaskBody Build.task env s).state hok2 hbad2 f (by omega)
    refine ⟨t, ?_, ?_, ?_, ?_, ?_, ?_⟩
    · rw [appTask, hbody]
      exact ht
    · rw [d1, c1]; omega
    · rw [d2, c2]; omega
    · rw [d3, c3]; omega
    · rw [d4, c4]; omega
    · rw [d5, c5]; omega

/-- While every `osDelay` result is osOK the task loop keeps running: after
`n` iterations it has made `n` calls of each kind and has not halted. -/
theorem appTask_runs_while_ok (env : Env) :
    ∀ (n : Nat) (s : State),
      (∀ i, i < n → env.osDelay (delayCalls s.trace + i) = osStatus_t.osOK) →
        ∃ t, appTask Build.task env n s = Outcome.running t ∧
          pinReads t.trace = pinReads s.trace + n ∧
          gyroReads t.trace = gyroReads s.trace + n ∧
          writesOf Led.GREEN_LED t.trace = writesOf Led.GREEN_LED s.trace + n ∧
          writesOf Led.RED_LED t.trace = writesOf Led.RED_LED s.trace + n ∧
          delayCalls t.trace = delayCalls s.trace + n := by
  intro n
  induction n with
  | zero =>
    intro s _
    exact ⟨s, rfl, rfl, rfl, rfl, rfl, rfl⟩
  | succ n ih =>
    intro s hok
    obtain ⟨c1, c2, c3, c4, c5⟩ := appTaskBody_counts Build.task env s rfl
    have hbody := appTaskBody_outcome Build.task env s rfl
    rw [if_pos (by simpa using hok 0 (Nat.succ_pos n))] at hbody
    have hok2 : ∀ i, i < n →
        env.osDelay (delayCalls (appTaskBody Build.task env s).state.trace + i) =
          osStatus_t.osOK := by
      intro i hi
      rw [c5, Nat.add_assoc, Nat.add_comm 1 i]
      exact hok (i + 1) (by omega)
    obtain ⟨t, ht, d1, d2, d3, d4, d5⟩ := ih (appTaskBody Build.task env s).state hok2
    refine ⟨t, ?_, ?_, ?_, ?_, ?_, ?_⟩
    · rw [appTask, hbody]
      exact ht
    · rw [d1, c1]; omega
    · rw [d2, c2]; omega
    · rw [d3, c3]; omega
    · rw [d4, c4]; omega
    · rw [d5, c5]; omega

/-- C4: in the task loop of the TaskDriven build, a pass whose `osDelay`
result is not osOK ends in the halt loop after the five calls of that pass
(pin read, gyro read, green write, red write, `osDelay`), whatever number of
further iterations is granted, so no further call is made; a pass whose
`osDelay` result is osOK returns and the loop goes on with the next pass.
Hence, when the first `k` results of `osDelay` are osOK and the next one is
not, the loop halts after exactly `k + 1` passes (`k + 1` pin reads, gyro
reads, green writes, red writes and `osDelay` calls), and it has not halted
before. -/
theorem appTask_delay_status (env : Env) (s : State) (k : Nat)
    (hok : ∀ i, i < k → env.osDelay (delayCalls s.trace + i) = osStatus_t.osOK)
    (hbad : env.osDelay (delayCalls s.trace + k) ≠ osStatus_t.osOK) :
    (∀ u : State, env.osDelay (delayCalls u.trace) ≠ osStatus_t.osOK →
      appTaskBody Build.task env u = Outcome.halted (appTaskBody Build.task env u).state ∧
      (∀ fuel, appTask Build.task env (fuel + 1) u =
        Outcome.halted (appTaskBody Build.task env u).state) ∧
      ∃ g r, newEvents u (appTaskBody Build.task env u).state =
        [Event.HAL_GPIO_ReadPin (env.HAL_GPIO_ReadPin (pinReads u.trace)),
         Event.Gyro_Get_Velocity (env.Gyro_Get_Velocity (gyroReads u.trace)),
         Event.HAL_GPIO_WritePin Led.GREEN_LED g,
         Event.HAL_GPIO_WritePin Led.RED_LED r,
         Event.osDelay TASK_DELAY (env.osDelay (delayCalls u.trace))]) ∧
    (∀ u : State, env.osDelay (delayCalls u.trace) = osStatus_t.osOK →
      appTaskBody Build.task env u = Outcome.returned (appTaskBody Build.task env u).state ∧
      (∀ fuel, appTask Build.task env (fuel + 1) u =
        appTask Build.task env fuel (appTaskBody Build.task env u).state) ∧
      ∃ g r, newEvents u (appTaskBody Build.task env u).state =
        [Event.HAL_GPIO_ReadPin (env.HAL_GPIO_ReadPin (pinReads u.trace)),
         Event.Gyro_Get_Velocity (env.Gyro_Get_Velocity (gyroReads u.trace)),
         Event.HAL_GPIO_WritePin Led.GREEN_LED g,
         Event.HAL_GPIO_WritePin Led.RED_LED r,
         Event.osDelay TASK_DELAY osStatus_t.osOK]) ∧
    (∀ fuel, k + 1 ≤ fuel →
      ∃ t, appTask Build.task env fuel s = Outcome.halted t ∧
        pinReads t.trace = pinReads s.trace + (k + 1) ∧
        gyroReads t.trace = gyroReads s.trace + (k + 1) ∧
        writesOf Led.GREEN_LED t.trace = writesOf Led.GREEN_LED s.trace + (k + 1) ∧
        writesOf Led.RED_LED t.trace = writesOf Led.RED_LED s.trace + (k + 1) ∧
        delayCalls t.trace = delayCalls s.trace + (k + 1)) ∧
    (∀ fuel, fuel ≤ k →
      ∃ t, appTask Build.task env fuel s = Outcome.running t ∧
        pinReads t.trace = pinReads s.trace + fuel ∧
        gyroReads t.trace = gyroReads s.trace + fuel ∧
        writesOf Led.GREEN_LED t.trace = writesOf Led.GREEN_LED s.trace + fuel ∧
        writesOf Led.RED_LED t.trace = writesOf Led.RED_LED s.trace + fuel ∧
        delayCalls t.trace = delayCalls s.trace + fuel) := by
  refine ⟨?_, ?_, ?_, ?_⟩
  · intro u hu
    have hbody := appTaskBody_outcome Build.task env u rfl
    rw [if_neg hu] at hbody
    obtain ⟨g, r, htr, -, -, -⟩ := appTaskBody_calls Build.task env u rfl
    refine ⟨hbody, ?_, g, r, newEvents_of_trace _ _ _ htr⟩
    intro fuel
    rw [appTask]
    conv_lhs => rw [hbody]
    rfl
  · intro u hu
    have hbody := appTaskBody_outcome Build.task env u rfl
    rw [if_pos hu] at hbody
    obtain ⟨g, r, htr, -, -, -⟩ := appTaskBody_calls Build.task env u rfl
    rw [hu] at htr
    refine ⟨hbody, ?_, g, r, newEvents_of_trace _ _ _ htr⟩
    intro fuel
    rw [appTask]
    conv_lhs => rw [hbody]
    rfl
  · exact appTask_halts_after env k s hok hbad
  · intro fuel hfuel
    exact appTask_runs_while_ok env fuel s (fun i hi => hok i (by omega))

/-- Witness of C4: with `osDelay` giving osOK twice and then osError, the
task loop started after reset halts after three passes. -/
theorem appTask_delay_status_witness :
    ∃ t, appTask Build.task
        { Env.steady GPIO_PinState.GPIO_PIN_SET 0 osStatus_t.osOK with
          osDelay := fun i => if i < 2 then osStatus_t.osOK else osStatus_t.osError }
        5 State.reset = Outcome.halted t ∧
      pinReads t.trace = pinReads State.reset.trace + (2 + 1) ∧
      gyroReads t.trace = gyroReads State.reset.trace + (2 + 1) ∧
      writesOf Led.GREEN_LED t.trace = writesOf Led.GREEN_LED State.reset.trace + (2 + 1) ∧
      writesOf Led.RED_LED t.trace = writesOf Led.RED_LED State.reset.trace + (2 + 1) ∧
      delayCalls t.trace = delayCalls State.reset.trace + (2 + 1) :=
  (appTask_delay_status
    { Env.steady GPIO_PinState.GPIO_PIN_SET 0 osStatus_t.osOK with
      osDelay := fun i => if i < 2 then osStatus_t.osOK else osStatus_t.osError }
    State.reset 2 (by decide) (by decide)).2.2.1 5 (by decide)

/-- The button interrupt handler disables its interrupt line, samples the
button, clears the pending flag and re-enables the line; it writes no LED
and leaves the tick counter as it is. -/
theorem EXTI0_IRQHandler_calls (env : Env) (s : State) :
    (EXTI0_IRQHandler env s).trace =
      s.trace ++ [Event.HAL_NVIC_DisableIRQ,
                  Event.HAL_GPIO_ReadPin (env.HAL_GPIO_ReadPin (pinReads s.trace)),
                  Event.HAL_GPIO_EXTI_CLEAR_IT,
                  Event.HAL_NVIC_EnableIRQ] ∧
    (EXTI0_IRQHandler env s).buttonState = env.HAL_GPIO_ReadPin (pinReads s.trace) ∧
    (EXTI0_IRQHandler env s).sysTicks = s.sysTicks ∧
    ledWrites (newEvents s (EXTI0_IRQHandler env s)) = 0 ∧
    gyroReads (newEvents s (EXTI0_IRQHandler env s)) = 0 := by
  have htr : (EXTI0_IRQHandler env s).trace =
      s.trace ++ [Event.HAL_NVIC_DisableIRQ,
                  Event.HAL_GPIO_ReadPin (env.HAL_GPIO_ReadPin (pinReads s.trace)),
                  Event.HAL_GPIO_EXTI_CLEAR_IT,
                  Event.HAL_NVIC_EnableIRQ] := by
    simp [EXTI0_IRQHandler, sampleUserButton_eq, pinReads, Event.isPinRead]
  refine ⟨htr, ?_, ?_, ?_, ?_⟩
  · simp [EXTI0_IRQHandler, sampleUserButton_eq, pinReads, Event.isPinRead]
  · simp [EXTI0_IRQHandler, sampleUserButton_eq]
  · rw [newEvents_of_trace _ _ _ htr]; rfl
  · rw [newEvents_of_trace _ _ _ htr]; rfl

/-- One tick callback of a build without the Polling switch, from a
counter within 0..99: below 99 it only increments the counter; at 99 it
makes the three calls of one `driveLEDs` and resets the counter. -/
theorem HAL_SYSTICK_Callback_step (b : Build) (env : Env) (t : State)
    (hb : b.LAB1_USE_POLLING = false) (hlo : 0 ≤ t.sysTicks) (hhi : t.sysTicks ≤ 99) :
    wrapInt8 (t.sysTicks + 1) = t.sysTicks + 1 ∧
    (t.sysTicks < 99 →
      (HAL_SYSTICK_Callback b env t).sysTicks = t.sysTicks + 1 ∧
      (HAL_SYSTICK_Callback b env t).trace = t.trace) ∧
    (t.sysTicks = 99 →
      (HAL_SYSTICK_Callback b env t).sysTicks = 0 ∧
      ∃ g r, (HAL_SYSTICK_Callback b env t).trace =
        t.trace ++ [Event.Gyro_Get_Velocity (env.Gyro_Get_Velocity (gyroReads t.trace)),
                    Event.HAL_GPIO_WritePin Led.GREEN_LED g,
                    Event.HAL_GPIO_WritePin Led.RED_LED r]) := by
  have hw : wrapInt8 (t.sysTicks + 1) = t.sysTicks + 1 := by
    unfold wrapInt8; omega
  refine ⟨hw, ?_, ?_⟩
  · intro h
    have hne : ¬ t.sysTicks + 1 = 100 := by omega
    simp only [HAL_SYSTICK_Callback, hw, if_neg hne, and_self]
  · intro h
    have he : wrapInt8 (t.sysTicks + 1) = 100 := by rw [hw]; omega
    obtain ⟨g, r, htr, -, -⟩ :=
      driveLEDs_stored_calls b env { t with sysTicks := wrapInt8 (t.sysTicks + 1) } hb
    refine ⟨?_, g, r, ?_⟩
    · simp only [HAL_SYSTICK_Callback, he, if_true]
    · simp only [HAL_SYSTICK_Callback, he, if_true]
      rw [he] at htr
      exact htr

/-- C6: in the InterruptDriven build, starting from `sysTicks = 0`, after
`n` invocations of `HAL_SYSTICK_Callback` the counter equals `n mod 100`,
so it stays within 0..99 and the increment never leaves the range of its
signed 8-bit type; `driveLEDs` has run `n / 100` times (that many gyro
reads, green writes and red writes since the start); and invocation number
`n + 1` makes the three calls of one `driveLEDs` exactly when `n + 1` is a
multiple of 100 and makes no call otherwise. -/
theorem systick_counter (env : Env) (s : State) (h0 : s.sysTicks = 0) (n : Nat) :
    (ticks Build.interrupt env n s).sysTicks = ((n % 100 : Nat) : Int) ∧
    0 ≤ (ticks Build.interrupt env n s).sysTicks ∧
    (ticks Build.interrupt env n s).sysTicks ≤ 99 ∧
    wrapInt8 ((ticks Build.interrupt env n s).sysTicks + 1) =
      (ticks Build.interrupt env n s).sysTicks + 1 ∧
    gyroReads (ticks Build.interrupt env n s).trace = gyroReads s.trace + n / 100 ∧
    writesOf Led.GREEN_LED (ticks Build.interrupt env n s).trace =
      writesOf Led.GREEN_LED s.trace + n / 100 ∧
    writesOf Led.RED_LED (ticks Build.interrupt env n s).trace =
      writesOf Led.RED_LED s.trace + n / 100 ∧
    (∃ g r, newEvents (ticks Build.interrupt env n s) (ticks Build.interrupt env (n + 1) s) =
      if (n + 1) % 100 = 0 then
        [Event.Gyro_Get_Velocity
           (env.Gyro_Get_Velocity (gyroReads (ticks Build.interrupt env n s).trace)),
         Event.HAL_GPIO_WritePin Led.GREEN_LED g,
         Event.HAL_GPIO_WritePin Led.RED_LED r]
      else []) := by
  have inv : ∀ m : Nat,
      (ticks Build.interrupt env m s).sysTicks = ((m % 100 : Nat) : Int) ∧
      gyroReads (ticks Build.interrupt env m s).trace = gyroReads s.trace + m / 100 ∧
      writesOf Led.GREEN_LED (ticks Build.interrupt env m s).trace =
        writesOf Led.GREEN_LED s.trace + m / 100 ∧
      writesOf Led.RED_LED (ticks Build.interrupt env m s).trace =
        writesOf Led.RED_LED s.trace + m / 100 := by
    intro m
    induction m with
    | zero => simp [ticks, h0]
    | succ m ih =>
      obtain ⟨i1, i2, i3, i4⟩ := ih
      obtain ⟨-, hlt, heq⟩ := HAL_SYSTICK_Callback_step Build.interrupt env
        (ticks Build.interrupt env m s) rfl (by omega) (by omega)
      by_cases h99 : m % 100 = 99
      · obtain ⟨j1, g, r, j2⟩ := heq (by omega)
        simp only [ticks]
        rw [j1, j2]
        refine ⟨by omega, ?_, ?_, ?_⟩
        · simp only [gyroReads, List.countP_append] at i2 ⊢
          simp [Event.isGyroRead, i2]; omega
        · simp only [writesOf, List.countP_append] at i3 ⊢
          simp [Event.isWriteOf, i3]; omega
        · simp only [writesOf, List.countP_append] at i4 ⊢
          simp [Event.isWriteOf, i4]; omega
      · obtain ⟨j1, j2⟩ := hlt (by omega)
        simp only [ticks]
        rw [j1, j2]
        refine ⟨by omega, ?_, ?_, ?_⟩
        · rw [i2]; omega
        · rw [i3]; omega
        · rw [i4]; omega
  obtain ⟨i1, i2, i3, i4⟩ := inv n
  obtain ⟨hw, hlt, heq⟩ := HAL_SYSTICK_Callback_step Build.interrupt env
    (ticks Build.interrupt env n s) rfl (by omega) (by omega)
  refine ⟨i1, by omega, by omega, hw, i2, i3, i4, ?_⟩
  by_cases h99 : n % 100 = 99
  · obtain ⟨-, g, r, j2⟩ := heq (by omega)
    refine ⟨g, r, ?_⟩
    rw [if_pos (by omega)]
    exact newEvents_of_trace _ _ _ j2
  · obtain ⟨-, j2⟩ := hlt (by omega)
    refine ⟨GPIO_PinState.GPIO_PIN_RESET, GPIO_PinState.GPIO_PIN_RESET, ?_⟩
    rw [if_neg (by omega)]
    exact newEvents_of_trace _ _ _ (by simp only [ticks]; rw [j2]; simp)

/-- Witness of C6: from the reset state, 250 tick callbacks leave the
counter at 50 and have run `driveLEDs` twice. -/
theorem systick_counter_witness :
    (ticks Build.interrupt (Env.steady GPIO_PinState.GPIO_PIN_RESET 0 osStatus_t.osOK)
        250 State.reset).sysTicks = ((250 % 100 : Nat) : Int) ∧
    gyroReads (ticks Build.interrupt
        (Env.steady GPIO_PinState.GPIO_PIN_RESET 0 osStatus_t.osOK) 250 State.reset).trace =
      gyroReads State.reset.trace + 250 / 100 :=
  ⟨(systick_counter (Env.steady GPIO_PinState.GPIO_PIN_RESET 0 osStatus_t.osOK)
      State.reset rfl 250).1,
   (systick_counter (Env.steady GPIO_PinState.GPIO_PIN_RESET 0 osStatus_t.osOK)
      State.reset rfl 250).2.2.2.2.1⟩

end App
